import Mathlib

/-!
# Verification of the cugraph C API dispatch / graph-lifecycle layer

Shallow embedding of `cpp/src/c_api/graph_sg.cpp` (the single-GPU graph
create/free entry points and their dispatch functors), together with the
pagerank smoke-test scenario of `cpp/tests/c_api/pagerank_test.c`.

Machine sizes (`size_t`) are modelled as `Nat`, vertex ids as `Int`,
edge weights in the pagerank scenario as `ℚ`.  A read through a null
pointer is modelled as a distinguished undefined-behaviour outcome.
-/

namespace Cugraph

/-- The runtime scalar type tags of the C API (`data_type_id_t`). -/
inductive data_type_id_t where
  | INT32
  | INT64
  | FLOAT32
  | FLOAT64
deriving DecidableEq, Repr

/-- A type-erased device array as the create path sees it: its runtime
type tag plus its contents.  The dispatch layer only ever reads the tag
(`type_`) and the length (`size_`); the payload is carried for the
renumbering claims and is modelled as integers (vertex ids). -/
structure device_array where
  type_ : data_type_id_t
  data : List Int
deriving DecidableEq, Repr

/-- The `size_` field of `cugraph_type_erased_device_array_t`. -/
def device_array.size_ (a : device_array) : Nat := a.data.length

/-- The C struct `cugraph_graph_properties_t`. -/
structure cugraph_graph_properties_t where
  is_symmetric : Bool
  is_multigraph : Bool
deriving DecidableEq, Repr

/-- The status codes returned across the C boundary. -/
inductive cugraph_error_code_t where
  | CUGRAPH_SUCCESS
  | CUGRAPH_UNKNOWN_ERROR
  | CUGRAPH_INVALID_INPUT
  | CUGRAPH_UNSUPPORTED_TYPE_COMBINATION
deriving DecidableEq, Repr

/-- An undefined-behaviour event: reading a field through a null
pointer.  `graph_sg.cpp` line 220 reads `p_weights->type_` on the branch
where `weights` is null. -/
inductive ub_event where
  | null_field_read
deriving DecidableEq, Repr

/-- Line 186 of `graph_sg.cpp`:
`constexpr size_t int32_threshold{2 ^ 31 - 1};`.
In C++ `^` is bitwise xor and binds looser than `-`, so the initializer
is `2 xor (31 - 1) = 2 xor 30`. -/
def int32_threshold : Nat := Nat.xor 2 (31 - 1)

/-- Lines 213-217: edge type selection from the edge count
(`p_src->size_`). -/
def select_edge_type (src_size : Nat) : data_type_id_t :=
  if src_size < int32_threshold then .INT32 else .INT64

/-- Lines 219-223: weight type selection.
`if (!weights) { weight_type = p_weights->type_; } else { weight_type =
FLOAT32; }` — on the `!weights` branch `p_weights` is the (null) cast of
`weights`, so the field read is undefined behaviour. -/
def select_weight_type (weights : Option device_array) :
    Except ub_event data_type_id_t :=
  match weights with
  | none => .error .null_field_read
  | some _ => .ok .FLOAT32

/-- The tuple of runtime tags and flags on which `vertex_dispatcher`
selects a specialization. -/
structure tag_tuple where
  vertex : data_type_id_t
  edge : data_type_id_t
  weight : data_type_id_t
  store_transposed : Bool
  multi_gpu : Bool
deriving DecidableEq, Repr

/-- Byte width of the concrete scalar type a tag maps to
(`dtypes_mapping`: INT32 ↦ int32_t, INT64 ↦ int64_t, FLOAT32 ↦ float,
FLOAT64 ↦ double). -/
def tag_size_bytes : data_type_id_t → Nat
  | .INT32 => 4
  | .INT64 => 8
  | .FLOAT32 => 4
  | .FLOAT64 => 8

/-- Whether a tag maps to an integral C type. -/
def tag_is_integral : data_type_id_t → Bool
  | .INT32 => true
  | .INT64 => true
  | _ => false

/-- Whether a tag maps to a floating-point C type. -/
def tag_is_floating : data_type_id_t → Bool
  | .FLOAT32 => true
  | .FLOAT64 => true
  | _ => false

/-- Modelled from the spec: the closed registry of specializations
(§4.2).  The trait `cugraph::is_candidate<vertex_t, edge_t, weight_t>`
tested at line 70 of `graph_sg.cpp` lives in a library header outside
`src/`; per the spec the registered combinations are exactly the
structurally valid ones: integral vertex and edge types with the vertex
type no wider than the edge type, and a floating-point weight type. -/
def is_candidate (v e w : data_type_id_t) : Bool :=
  tag_is_integral v && tag_is_integral e &&
    decide (tag_size_bytes v ≤ tag_size_bytes e) && tag_is_floating w

/-- Modelled from the spec: the internal specialized graph structure
(`cugraph::graph_t`), built outside `src/` by
`create_graph_from_edgelist`.  Only the features the dispatch layer uses
are kept: the vertex count and the edge list. -/
structure graph_model where
  number_of_vertices : Nat
  edges : List (Int × Int)
deriving DecidableEq, Repr

/-- The `cugraph::c_api::cugraph_graph_t` handle built at lines 127-134:
the stored tag tuple, the owned internal graph and the owned number
map.  The number-map pointer is always allocated by the create functor
(line 80); its retained contents are the list. -/
structure cugraph_graph_t where
  vertex_type_ : data_type_id_t
  edge_type_ : data_type_id_t
  weight_type_ : data_type_id_t
  store_transposed_ : Bool
  multi_gpu_ : Bool
  graph_ : graph_model
  number_map_ : List Int
deriving DecidableEq, Repr

/-- The tag tuple stored in a graph handle, as read back by
`cugraph_sg_graph_free` (lines 256-262) to dispatch destruction. -/
def stored_tuple (g : cugraph_graph_t) : tag_tuple :=
  ⟨g.vertex_type_, g.edge_type_, g.weight_type_, g.store_transposed_, g.multi_gpu_⟩

/-- The signature of the underlying build step
(`create_graph_from_edgelist`, line 106): edge rows, edge columns,
optional weights, properties, renumber and check flags; it may throw
(modelled as `Except` with the exception message) and on success yields
the internal graph and, when renumbering, the new number map. -/
def build_fn :=
  List Int → List Int → Option (List Int) → cugraph_graph_properties_t →
    Bool → Bool → Except String (graph_model × Option (List Int))

/-- Largest vertex id occurring in the edge list, plus one (0 when the
list is empty or all ids are negative): the vertex-count of a graph
whose ids are used directly as dense indices. -/
def max_vertex_id_plus_one (rows cols : List Int) : Nat :=
  ((rows ++ cols).map (fun x => x.toNat + 1)).foldl max 0

/-- Modelled from the spec: `create_graph_from_edgelist` is a library
function outside `src/`.  Per the spec (§4.3), with `renumber = true` it
computes a dense contiguous numbering of the distinct vertex labels of
the edge list — the exact ordering is an implementation freedom, here the order
chosen by `List.dedup` — and returns the label-per-internal-index array;
with `renumber = false` ids are used directly as dense indices and no
map is returned.  It never throws in this model. -/
def create_graph_from_edgelist_model : build_fn :=
  fun rows cols _wgts _props renumber _check =>
    if renumber then
      let distinct := (rows ++ cols).dedup
      .ok (⟨distinct.length, rows.zip cols⟩, some distinct)
    else
      .ok (⟨max_vertex_id_plus_one rows cols, rows.zip cols⟩, none)

/-- Outcome of running `create_graph_functor::operator()` (lines
63-138), paired below with the number of owned device-side resources
the run allocated. -/
inductive functor_outcome where
  | unsupported
  | threw (msg : String)
  | built (result : cugraph_graph_t)
deriving DecidableEq, Repr

/-- Body of `create_graph_functor::operator()` (lines 63-138).  The tuple the
dispatcher instantiated it at is `t`.  Line 70: a multi-GPU tuple or a
non-candidate tuple calls `unsupported()` before anything is allocated.
Otherwise the functor news the graph and the number map, copies the
edge lists (and weights when present) into fresh device buffers — five
or four allocations — and runs the build step; on success the number
map is the returned renumbering map (line 117) or, when `renumber_` is
false, the identity sequence `0, 1, …` of length
`graph->get_number_of_vertices()` starting at
`get_local_vertex_first() = 0` (lines 119-123).  The handle stores
`src_->type_`, `edge_type_`, `weights_ ? weights_->type_ : FLOAT32`,
and the dispatch flags (lines 127-134). -/
def create_graph_functor_call (build : build_fn) (t : tag_tuple)
    (props : cugraph_graph_properties_t)
    (src dst : device_array) (weights : Option device_array)
    (renumber check : Bool) (edge_type : data_type_id_t) :
    functor_outcome × Nat :=
  if t.multi_gpu || !(is_candidate t.vertex t.edge t.weight) then
    (.unsupported, 0)
  else
    let nalloc := 4 + (if weights.isSome then 1 else 0)
    match build src.data dst.data (weights.map (·.data)) props renumber check with
    | .error msg => (.threw msg, nalloc)
    | .ok (graph, new_number_map) =>
      let number_map :=
        if renumber then new_number_map.getD []
        else (List.range graph.number_of_vertices).map Int.ofNat
      (.built ⟨src.type_, edge_type,
               (match weights with | some w => w.type_ | none => .FLOAT32),
               t.store_transposed, t.multi_gpu, graph, number_map⟩,
       nalloc)

/-- The observable outcome of `cugraph_sg_graph_create`: either the
call crashed on the null-pointer field read, or it returned a status
code — `invalid` carries the error message and leaves the graph output
null, `unsupported` and `unknown_error` record the tuple that was
dispatched, and `success` records the dispatched tuple and the graph
handle written to `*graph`. -/
inductive sg_create_result where
  | crash (e : ub_event)
  | invalid (message : String)
  | unsupported (dispatched : tag_tuple)
  | unknown_error (dispatched : tag_tuple) (message : String)
  | success (dispatched : tag_tuple) (graph : cugraph_graph_t)
deriving DecidableEq, Repr

/-- The graph written to `*graph` (null unless the call succeeded). -/
def sg_create_result.graph_out : sg_create_result → Option cugraph_graph_t
  | .success _ g => some g
  | _ => none

/-- The status code the call returned, `none` when it crashed and never
returned. -/
def sg_create_result.code : sg_create_result → Option cugraph_error_code_t
  | .crash _ => none
  | .invalid _ => some .CUGRAPH_INVALID_INPUT
  | .unsupported _ => some .CUGRAPH_UNSUPPORTED_TYPE_COMBINATION
  | .unknown_error _ _ => some .CUGRAPH_UNKNOWN_ERROR
  | .success _ _ => some .CUGRAPH_SUCCESS

/-- The error message placed in `*error` (null on success or crash). -/
def sg_create_result.error_out : sg_create_result → Option String
  | .invalid m => some m
  | .unknown_error _ m => some m
  | _ => none

/-- Entry point `cugraph_sg_graph_create` (lines 173-248), parametrized by the
underlying build step so that exception propagation can be stated for
every builder.  Returns the outcome and the number of owned device-side
resources allocated during the call.

Lines 188-189 null both outputs first.  Lines 197-208 are the three
`CAPI_EXPECTS` validations, in source order, each returning
`CUGRAPH_INVALID_INPUT` with its message (the macro, from
`c_api/error.hpp` outside `src/`, is modelled from the spec's error
gateway: on a false condition it stores the message and returns the
code at once, touching no other output).  Lines 210-223 select the edge
and weight tags, lines 225-241 dispatch the create functor on
`(p_src->type_, edge_type, weight_type, store_transposed, multi_gpu =
false)` and forward a functor error code or store the result in
`*graph`; lines 242-245 catch any escaped exception and return
`CUGRAPH_UNKNOWN_ERROR` carrying its message. -/
def cugraph_sg_graph_create_with (build : build_fn)
    (properties : cugraph_graph_properties_t)
    (src dst : device_array) (weights : Option device_array)
    (store_transposed renumber check : Bool) : sg_create_result × Nat :=
  if src.size_ ≠ dst.size_ then
    (.invalid "Invalid input arguments: src size != dst size.", 0)
  else if src.type_ ≠ dst.type_ then
    (.invalid "Invalid input arguments: src type != dst type.", 0)
  else if !(match weights with
            | none => true
            | some w => w.size_ == src.size_) then
    (.invalid "Invalid input arguments: src size != weights size.", 0)
  else
    let edge_type := select_edge_type src.size_
    match select_weight_type weights with
    | .error e => (.crash e, 0)
    | .ok weight_type =>
      let t : tag_tuple := ⟨src.type_, edge_type, weight_type, store_transposed, false⟩
      match create_graph_functor_call build t properties src dst weights
              renumber check edge_type with
      | (.unsupported, n) => (.unsupported t, n)
      | (.threw msg, n) => (.unknown_error t msg, n)
      | (.built g, n) => (.success t g, n)

/-- Entry point `cugraph_sg_graph_create` with the library build step. -/
def cugraph_sg_graph_create
    (properties : cugraph_graph_properties_t)
    (src dst : device_array) (weights : Option device_array)
    (store_transposed renumber check : Bool) : sg_create_result × Nat :=
  cugraph_sg_graph_create_with create_graph_from_edgelist_model
    properties src dst weights store_transposed renumber check

/-! ## Destruction (`cugraph_sg_graph_free`, lines 250-266)

Live allocations are modelled as a list of pointer names; `delete`
removes a pointer from the live set. -/

/-- Effect of `delete p`: the pointer `p` is no longer live. -/
def delete_ptr (heap : List Nat) (p : Nat) : List Nat :=
  heap.filter (fun q => q ≠ p)

/-- Body of `destroy_graph_functor::operator()` (lines 150-167): deletes the
internal graph structure, then the number map, unconditionally for
whatever tuple it was dispatched at. -/
def destroy_graph_functor_call (heap : List Nat)
    (graph_ptr number_map_ptr : Nat) : List Nat :=
  delete_ptr (delete_ptr heap graph_ptr) number_map_ptr

/-- Result of `cugraph_sg_graph_free`: the tag tuple it dispatched
destruction on and the live allocations afterwards. -/
structure free_result where
  dispatched : tag_tuple
  heap_after : List Nat
deriving DecidableEq, Repr

/-- Entry point `cugraph_sg_graph_free` (lines 250-266): reads the stored tag tuple
back out of the handle, dispatches `destroy_graph_functor` on it — which
deletes the internal graph structure and the number map — and finally
deletes the handle struct itself.  `graph_ptr`, `number_map_ptr` and
`handle_ptr` name the allocations behind the handle's `graph_`,
`number_map_` and the handle itself. -/
def cugraph_sg_graph_free (g : cugraph_graph_t) (heap : List Nat)
    (graph_ptr number_map_ptr handle_ptr : Nat) : free_result :=
  ⟨stored_tuple g,
   delete_ptr (destroy_graph_functor_call heap graph_ptr number_map_ptr) handle_ptr⟩

/-! ## The pagerank smoke test (`cpp/tests/c_api/pagerank_test.c`)

The pagerank kernel and the graph transposition it may trigger are
library code outside `src/`; they are modelled from the spec below and
validated against the test's expected scores. -/

/-- Modelled from the spec: sum of the weights of the edges leaving
`v` — the out-weight sums the kernel divides ranks by. -/
def out_weight_sum (edges : List (Nat × Nat × ℚ)) (v : Nat) : ℚ :=
  (edges.filter (fun e => e.1 == v)).foldl (fun acc e => acc + e.2.2) 0

/-- Modelled from the spec: total rank mass sitting on dangling
vertices (vertices with zero out-weight). -/
def dangling_mass (n : Nat) (edges : List (Nat × Nat × ℚ)) (pr : List ℚ) : ℚ :=
  ((List.range n).filter (fun v => out_weight_sum edges v == 0)).foldl
    (fun acc v => acc + pr.getD v 0) 0

/-- Modelled from the spec: one damped, weighted pagerank update with
uniform restart and uniform redistribution of dangling mass. -/
def pagerank_step (n : Nat) (edges : List (Nat × Nat × ℚ)) (alpha : ℚ)
    (pr : List ℚ) : List ℚ :=
  (List.range n).map (fun v =>
    (1 - alpha) / (n : ℚ) + alpha * dangling_mass n edges pr / (n : ℚ) +
      alpha * ((edges.filter (fun e => e.2.1 == v)).foldl
        (fun acc e => acc + pr.getD e.1 0 * e.2.2 / out_weight_sum edges e.1) 0))

/-- L1 distance between two score vectors, the kernel's convergence
measure. -/
def l1_diff (xs ys : List ℚ) : ℚ :=
  (xs.zip ys).foldl (fun acc p => acc + |p.1 - p.2|) 0

/-- Modelled from the spec: the pagerank iteration loop — update, then
stop as soon as the L1 change drops below `epsilon`, for at most the
given number of iterations. -/
def pagerank_iterate (n : Nat) (edges : List (Nat × Nat × ℚ))
    (alpha epsilon : ℚ) : Nat → List ℚ → List ℚ
  | 0, pr => pr
  | k + 1, pr =>
    let npr := pagerank_step n edges alpha pr
    if l1_diff npr pr < epsilon then npr
    else pagerank_iterate n edges alpha epsilon k npr

/-- Modelled from the spec: the pagerank kernel (an external
collaborator per §1, invoked through the dispatch table), starting from
the uniform distribution when no initial guess is supplied. -/
def pagerank_model (n : Nat) (edges : List (Nat × Nat × ℚ))
    (alpha epsilon : ℚ) (max_iterations : Nat) : List ℚ :=
  pagerank_iterate n edges alpha epsilon max_iterations
    ((List.range n).map (fun _ => 1 / (n : ℚ)))

/-- The graph as `create_test_graph` builds it for the pagerank test:
the raw edge arrays and the storage orientation flag. -/
structure test_graph where
  srcs : List Nat
  dsts : List Nat
  wgts : List ℚ
  store_transposed : Bool
deriving DecidableEq, Repr

/-- Vertex count of a test graph: largest id plus one. -/
def test_graph.num_vertices (g : test_graph) : Nat :=
  ((g.srcs ++ g.dsts).map (· + 1)).foldl max 0

/-- Modelled from the spec: `cugraph_pagerank` on a graph handle.  The
kernel consumes a transposed (by-destination) representation; a graph
built with `store_transposed = true` is consumed as is, edges being the
`(srcs[i], dsts[i])` pairs.  A graph built untransposed forces the call
to transpose the graph first (the test's own comment at lines 124-126:
passing src/dst backwards then yields the same scores), so the edges
the kernel sees are the `(dsts[i], srcs[i])` pairs. -/
def cugraph_pagerank_call (g : test_graph) (alpha epsilon : ℚ)
    (max_iterations : Nat) : List ℚ :=
  let pairs := if g.store_transposed then g.srcs.zip g.dsts
               else g.dsts.zip g.srcs
  let edges := pairs.zip g.wgts |>.map (fun e => (e.1.1, e.1.2, e.2))
  pagerank_model (g.num_vertices) edges alpha epsilon max_iterations

/-- Element-wise comparison of a computed score vector against expected
scores, within an absolute tolerance (the test's `nearlyEqual` with its
`0.001` bound, over exact rationals). -/
def within_tolerance (computed expected : List ℚ) (tol : ℚ) : Bool :=
  computed.length == expected.length &&
    (computed.zip expected).all (fun p => |p.1 - p.2| ≤ tol)

/-- The edge arrays of `test_pagerank` (lines 96-98). -/
def pagerank_test_srcs : List Nat := [0, 1, 1, 2, 2, 2, 3, 4]

/-- Destination array of the pagerank test. -/
def pagerank_test_dsts : List Nat := [1, 3, 4, 0, 1, 3, 5, 5]

/-- Weight array of the pagerank test. -/
def pagerank_test_wgts : List ℚ :=
  [1/10, 21/10, 11/10, 51/10, 31/10, 41/10, 72/10, 32/10]

/-- Expected scores `h_result` of the pagerank test (line 99). -/
def pagerank_test_expected : List ℚ :=
  [915528/10000000, 168382/1000000, 656831/10000000,
   191468/1000000, 120677/1000000, 362237/1000000]

/-- The tag tuple the call handed to `vertex_dispatcher`, when it
reached dispatch. -/
def sg_create_result.dispatched : sg_create_result → Option tag_tuple
  | .unsupported t => some t
  | .unknown_error t _ => some t
  | .success t _ => some t
  | _ => none

/-- The message of the first failing validation of
`cugraph_sg_graph_create`, in source order (lines 197-208). -/
def first_validation_failure_message (src dst : device_array)
    (_weights : Option device_array) : String :=
  if src.size_ ≠ dst.size_ then "Invalid input arguments: src size != dst size."
  else if src.type_ ≠ dst.type_ then "Invalid input arguments: src type != dst type."
  else "Invalid input arguments: src size != weights size."

/-! ## Claims -/

/-- C1: the claim says an absent weight array makes the declared weight
type default to FLOAT32 and a supplied weight array contributes its own
tag.  The code (lines 219-223) has the branches swapped: a supplied
FLOAT64 weight array dispatches on FLOAT32, and an absent weight array
makes the call read `p_weights->type_` through the null pointer instead
of returning any weight type. -/
theorem C1_weight_type_policy_inverted :
    select_weight_type (some ⟨.FLOAT64, [7]⟩) = .ok .FLOAT32 ∧
    (cugraph_sg_graph_create ⟨false, false⟩ ⟨.INT32, [0]⟩ ⟨.INT32, [1]⟩
        (some ⟨.FLOAT64, [7]⟩) true true false).1.dispatched =
      some ⟨.INT32, .INT32, .FLOAT32, true, false⟩ ∧
    select_weight_type none = .error .null_field_read := by
  refine ⟨rfl, ?_, rfl⟩
  decide

/-- C2: the claim says the 32-bit edge-id representation is chosen
exactly when the edge count is below `2^31 - 1`.  The threshold
constant at line 186 is written `2 ^ 31 - 1`, which in C++ is
`2 xor 30 = 28`, so already 28 edges select the 64-bit representation
although `28 < 2^31 - 1`. -/
theorem C2_edge_type_threshold_is_28 :
    int32_threshold = 28 ∧
    select_edge_type 27 = .INT32 ∧
    select_edge_type 28 = .INT64 ∧
    (28 : Nat) < 2 ^ 31 - 1 ∧
    (cugraph_sg_graph_create ⟨false, false⟩
        ⟨.INT32, List.replicate 28 0⟩ ⟨.INT32, List.replicate 28 1⟩
        (some ⟨.FLOAT32, List.replicate 28 0⟩) true true false).1.dispatched =
      some ⟨.INT32, .INT64, .FLOAT32, true, false⟩ := by
  refine ⟨rfl, rfl, rfl, by norm_num, ?_⟩
  decide

/-- C4: the claim says a call whose type-tag tuple has no registered
specialization returns `UNSUPPORTED_TYPE_COMBINATION` before any owned
resource is allocated, leaving the graph output null.  That holds on
the weighted path (third conjunct: unsupported outcome and zero
allocations), but an unweighted call with an unsupported tuple never
reaches the dispatch check: the weight-type selection dereferences the
null weights pointer first (second conjunct). -/
theorem C4_unsupported_check_preempted_by_null_read :
    is_candidate .FLOAT32 .INT32 .FLOAT32 = false ∧
    (cugraph_sg_graph_create ⟨false, false⟩ ⟨.FLOAT32, [0]⟩ ⟨.FLOAT32, [1]⟩
        none false true false).1 = .crash .null_field_read ∧
    cugraph_sg_graph_create ⟨false, false⟩ ⟨.FLOAT32, [0]⟩ ⟨.FLOAT32, [1]⟩
        (some ⟨.FLOAT32, [0]⟩) false true false =
      (.unsupported ⟨.FLOAT32, .INT32, .FLOAT32, false, false⟩, 0) ∧
    (sg_create_result.unsupported
        ⟨.FLOAT32, .INT32, .FLOAT32, false, false⟩).graph_out = none := by
  decide

/-- C9: the claim says the tag tuple stored in the handle equals the
tuple construction was dispatched on.  With a FLOAT64 weight array the
call dispatches on weight tag FLOAT32 (the inverted selection, line
222) while the handle stores the array's FLOAT64 tag (line 130), so
`cugraph_sg_graph_free` later dispatches destruction on a different
tuple than the one that built the graph. -/
theorem C9_stored_tuple_differs_from_dispatched :
    (cugraph_sg_graph_create ⟨false, false⟩ ⟨.INT32, [0]⟩ ⟨.INT32, [1]⟩
        (some ⟨.FLOAT64, [7]⟩) true true false).1 =
      .success ⟨.INT32, .INT32, .FLOAT32, true, false⟩
        ⟨.INT32, .INT32, .FLOAT64, true, false, ⟨2, [(0, 1)]⟩, [0, 1]⟩ ∧
    stored_tuple ⟨.INT32, .INT32, .FLOAT64, true, false, ⟨2, [(0, 1)]⟩, [0, 1]⟩ =
      ⟨.INT32, .INT32, .FLOAT64, true, false⟩ ∧
    (cugraph_sg_graph_free
        ⟨.INT32, .INT32, .FLOAT64, true, false, ⟨2, [(0, 1)]⟩, [0, 1]⟩
        [0, 1, 2] 0 1 2).dispatched = ⟨.INT32, .INT32, .FLOAT64, true, false⟩ ∧
    (⟨.INT32, .INT32, .FLOAT64, true, false⟩ : tag_tuple) ≠
      ⟨.INT32, .INT32, .FLOAT32, true, false⟩ := by
  decide

/-- C10: the claim says the branch taken when the weights argument is
null never reads a field of the weights array.  The code's null branch
(line 220) is exactly the read `p_weights->type_` through the null
pointer, so a validation-passing unweighted call crashes and never
returns a status code. -/
theorem C10_null_branch_reads_null_weights :
    select_weight_type none = .error .null_field_read ∧
    cugraph_sg_graph_create ⟨false, false⟩ ⟨.INT32, [0]⟩ ⟨.INT32, [1]⟩
        none false true false = (.crash .null_field_read, 0) ∧
    (sg_create_result.crash .null_field_read).code = none := by
  refine ⟨rfl, by decide, rfl⟩

/-- C3: a call violating one of the three validation conditions — src
and dst lengths equal, src and dst tags equal, weights absent or of the
src length, checked in that order — returns `CUGRAPH_INVALID_INPUT`
with the message of the first failing check, allocates nothing, leaves
the graph output null and populates the error output. -/
theorem C3_validation_fail_fast
    (props : cugraph_graph_properties_t) (src dst : device_array)
    (weights : Option device_array) (st rn ck : Bool)
    (h : src.size_ ≠ dst.size_ ∨ src.type_ ≠ dst.type_ ∨
         ∃ w, weights = some w ∧ w.size_ ≠ src.size_) :
    cugraph_sg_graph_create props src dst weights st rn ck =
      (.invalid (first_validation_failure_message src dst weights), 0) ∧
    (cugraph_sg_graph_create props src dst weights st rn ck).1.graph_out = none ∧
    (cugraph_sg_graph_create props src dst weights st rn ck).1.code =
      some .CUGRAPH_INVALID_INPUT ∧
    (cugraph_sg_graph_create props src dst weights st rn ck).1.error_out =
      some (first_validation_failure_message src dst weights) := by
  have key : cugraph_sg_graph_create props src dst weights st rn ck =
      (.invalid (first_validation_failure_message src dst weights), 0) := by
    unfold cugraph_sg_graph_create cugraph_sg_graph_create_with
      first_validation_failure_message
    split
    · rfl
    · split
      · rfl
      · rename_i hc1 hc2
        rcases h with h | h | ⟨w, hw, hsz⟩
        · exact absurd h hc1
        · exact absurd h hc2
        · subst hw
          simp [hsz]
  refine ⟨key, ?_, ?_, ?_⟩ <;> rw [key] <;> rfl

/-- C3 witness: a concrete length-mismatched call fails with the first
validation message and zero allocations. -/
theorem C3_validation_fail_fast_witness :
    ((⟨.INT32, [0]⟩ : device_array).size_ ≠ (⟨.INT32, [0, 1]⟩ : device_array).size_ ∨
      (⟨.INT32, [0]⟩ : device_array).type_ ≠ (⟨.INT32, [0, 1]⟩ : device_array).type_ ∨
      ∃ w, (none : Option device_array) = some w ∧
        w.size_ ≠ (⟨.INT32, [0]⟩ : device_array).size_) ∧
    cugraph_sg_graph_create ⟨false, false⟩ ⟨.INT32, [0]⟩ ⟨.INT32, [0, 1]⟩
        none false false false =
      (.invalid "Invalid input arguments: src size != dst size.", 0) :=
  ⟨Or.inl (by decide), by
    rw [(C3_validation_fail_fast ⟨false, false⟩ ⟨.INT32, [0]⟩ ⟨.INT32, [0, 1]⟩
          none false false false (Or.inl (by decide))).1]
    decide⟩

/-- C5: any exception escaping the underlying build step is caught at
the public boundary and reported as `CUGRAPH_UNKNOWN_ERROR` with the
exception's original message, and the graph output stays null.  Stated
for every build step, every weighted input passing validation and every
supported tuple (an unweighted call never reaches the build step: it
crashes on the null read first, see C10). -/
theorem C5_build_exception_becomes_unknown_error
    (build : build_fn) (props : cugraph_graph_properties_t)
    (src dst w : device_array) (st rn ck : Bool) (msg : String)
    (h1 : src.size_ = dst.size_) (h2 : src.type_ = dst.type_)
    (h3 : w.size_ = src.size_)
    (h4 : is_candidate src.type_ (select_edge_type src.size_) .FLOAT32 = true)
    (h5 : build src.data dst.data (some w.data) props rn ck = .error msg) :
    cugraph_sg_graph_create_with build props src dst (some w) st rn ck =
      (.unknown_error ⟨src.type_, select_edge_type src.size_, .FLOAT32, st, false⟩ msg,
       5) ∧
    (cugraph_sg_graph_create_with build props src dst (some w) st rn ck).1.graph_out =
      none ∧
    (cugraph_sg_graph_create_with build props src dst (some w) st rn ck).1.code =
      some .CUGRAPH_UNKNOWN_ERROR ∧
    (cugraph_sg_graph_create_with build props src dst (some w) st rn ck).1.error_out =
      some msg := by
  have key : cugraph_sg_graph_create_with build props src dst (some w) st rn ck =
      (.unknown_error ⟨src.type_, select_edge_type src.size_, .FLOAT32, st, false⟩ msg,
       5) := by
    unfold cugraph_sg_graph_create_with create_graph_functor_call select_weight_type
    split
    · rename_i hc; exact absurd h1 hc
    · split
      · rename_i hc; exact absurd h2 hc
      · split
        · rename_i hc; simp [h3] at hc
        · simp [h4, h5]
  refine ⟨key, ?_, ?_, ?_⟩ <;> rw [key] <;> rfl

/-- A build step that always throws, for the C5 witness. -/
def throwing_build : build_fn := fun _ _ _ _ _ _ => .error "stream failure"

/-- C5 witness: a concrete valid weighted call whose build step throws
returns `unknown_error` with the thrown message and five leaked
allocations. -/
theorem C5_build_exception_becomes_unknown_error_witness :
    throwing_build [0] [1] (some [2]) ⟨false, false⟩ true false =
      .error "stream failure" ∧
    cugraph_sg_graph_create_with throwing_build ⟨false, false⟩
        ⟨.INT32, [0]⟩ ⟨.INT32, [1]⟩ (some ⟨.FLOAT32, [2]⟩) true true false =
      (.unknown_error ⟨.INT32, .INT32, .FLOAT32, true, false⟩ "stream failure", 5) :=
  ⟨rfl, by
    have h := (C5_build_exception_becomes_unknown_error throwing_build ⟨false, false⟩
      ⟨.INT32, [0]⟩ ⟨.INT32, [1]⟩ ⟨.FLOAT32, [2]⟩ true true false "stream failure"
      rfl rfl rfl (by decide) rfl).1
    exact h⟩

/-- C6 counterexample: a successful weighted create with `renumber =
false` retains a non-empty label map (the identity sequence), whereas
the claim says no label map is retained (an empty retained map in this
model). -/
theorem C6_counterexample_map_retained_without_renumber :
    ((cugraph_sg_graph_create ⟨false, false⟩ ⟨.INT32, [0]⟩ ⟨.INT32, [1]⟩
        (some ⟨.FLOAT32, [5]⟩) false false false).1.graph_out.map
          (fun g => g.number_map_)) = some [0, 1] ∧
    some ([0, 1] : List Int) ≠ some ([] : List Int) := by
  exact ⟨by decide, by decide⟩

/-- C6 (amended): for every successful create, with `renumber = true`
the retained label map is duplicate-free and a permutation of the
distinct vertex labels occurring in src and dst; with `renumber =
false` the retained map is the identity sequence over the graph's
vertex range, so translating vertex ids through it leaves them
unmodified. -/
theorem C6_renumber_map_contents
    (props : cugraph_graph_properties_t) (src dst : device_array)
    (weights : Option device_array) (st rn ck : Bool)
    (t : tag_tuple) (g : cugraph_graph_t)
    (h : (cugraph_sg_graph_create props src dst weights st rn ck).1 = .success t g) :
    (rn = true → g.number_map_.Nodup ∧
        g.number_map_.Perm ((src.data ++ dst.data).dedup)) ∧
    (rn = false → g.number_map_ =
        (List.range g.graph_.number_of_vertices).map Int.ofNat) := by
  rcases weights with _ | w
  · unfold cugraph_sg_graph_create cugraph_sg_graph_create_with
      select_weight_type at h
    split at h
    · simp at h
    · split at h
      · simp at h
      · split at h
        · simp at h
        · simp at h
  · cases rn
    · unfold cugraph_sg_graph_create cugraph_sg_graph_create_with at h
      split at h
      · simp at h
      · split at h
        · simp at h
        · split at h
          · simp at h
          · simp only [select_weight_type, create_graph_functor_call,
                       create_graph_from_edgelist_model, Bool.false_or] at h
            split at h
            · simp at h
            · simp at h
            · rename_i g2 n2 heq
              simp at h
              obtain ⟨ht, hg⟩ := h
              subst hg
              split at heq
              · simp at heq
              · simp at heq
                obtain ⟨hgg, hn⟩ := heq
                subst hgg
                exact ⟨fun hc => absurd hc (by decide), fun _ => rfl⟩
    · unfold cugraph_sg_graph_create cugraph_sg_graph_create_with at h
      split at h
      · simp at h
      · split at h
        · simp at h
        · split at h
          · simp at h
          · simp only [select_weight_type, create_graph_functor_call,
                       create_graph_from_edgelist_model, Bool.false_or] at h
            split at h
            · simp at h
            · simp at h
            · rename_i g2 n2 heq
              simp at h
              obtain ⟨ht, hg⟩ := h
              subst hg
              split at heq
              · simp at heq
              · simp at heq
                obtain ⟨hgg, hn⟩ := heq
                subst hgg
                exact ⟨fun _ => ⟨List.nodup_dedup _, List.Perm.refl _⟩,
                       fun hc => absurd hc (by decide)⟩

/-- C6 witness: a concrete renumbered create retains exactly the
deduplicated labels, a permutation of the distinct labels. -/
theorem C6_renumber_map_contents_witness :
    (cugraph_sg_graph_create ⟨false, false⟩ ⟨.INT32, [0, 5]⟩ ⟨.INT32, [5, 7]⟩
        (some ⟨.FLOAT32, [1, 2]⟩) false true false).1 =
      .success ⟨.INT32, .INT32, .FLOAT32, false, false⟩
        ⟨.INT32, .INT32, .FLOAT32, false, false, ⟨3, [(0, 5), (5, 7)]⟩, [0, 5, 7]⟩ ∧
    ((true = true →
        ([0, 5, 7] : List Int).Nodup ∧
        ([0, 5, 7] : List Int).Perm ((([0, 5] : List Int) ++ [5, 7]).dedup)) ∧
     (true = false →
        ([0, 5, 7] : List Int) =
          (List.range (3 : Nat)).map Int.ofNat)) :=
  ⟨by decide,
   C6_renumber_map_contents ⟨false, false⟩ ⟨.INT32, [0, 5]⟩ ⟨.INT32, [5, 7]⟩
     (some ⟨.FLOAT32, [1, 2]⟩) false true false
     ⟨.INT32, .INT32, .FLOAT32, false, false⟩
     ⟨.INT32, .INT32, .FLOAT32, false, false, ⟨3, [(0, 5), (5, 7)]⟩, [0, 5, 7]⟩
     (by decide)⟩

/-- C7: a single `cugraph_sg_graph_free` call deletes the internal
graph structure, the number map, and the handle itself together,
dispatching destruction on the handle's stored tag tuple. -/
theorem C7_free_releases_graph_and_map_together
    (g : cugraph_graph_t) (heap : List Nat) (gp np hp : Nat) :
    gp ∉ (cugraph_sg_graph_free g heap gp np hp).heap_after ∧
    np ∉ (cugraph_sg_graph_free g heap gp np hp).heap_after ∧
    hp ∉ (cugraph_sg_graph_free g heap gp np hp).heap_after ∧
    (cugraph_sg_graph_free g heap gp np hp).dispatched = stored_tuple g := by
  simp [cugraph_sg_graph_free, destroy_graph_functor_call, delete_ptr,
        List.mem_filter]

/-- C7 witness: freeing a concrete handle removes its graph, number
map and handle pointers from a concrete heap. -/
theorem C7_free_releases_graph_and_map_together_witness :
    0 ∉ (cugraph_sg_graph_free
          ⟨.INT32, .INT32, .FLOAT32, true, false, ⟨2, [(0, 1)]⟩, [0, 1]⟩
          [0, 1, 2, 9] 0 1 2).heap_after ∧
    1 ∉ (cugraph_sg_graph_free
          ⟨.INT32, .INT32, .FLOAT32, true, false, ⟨2, [(0, 1)]⟩, [0, 1]⟩
          [0, 1, 2, 9] 0 1 2).heap_after ∧
    2 ∉ (cugraph_sg_graph_free
          ⟨.INT32, .INT32, .FLOAT32, true, false, ⟨2, [(0, 1)]⟩, [0, 1]⟩
          [0, 1, 2, 9] 0 1 2).heap_after ∧
    (cugraph_sg_graph_free
          ⟨.INT32, .INT32, .FLOAT32, true, false, ⟨2, [(0, 1)]⟩, [0, 1]⟩
          [0, 1, 2, 9] 0 1 2).dispatched =
      stored_tuple ⟨.INT32, .INT32, .FLOAT32, true, false, ⟨2, [(0, 1)]⟩, [0, 1]⟩ :=
  C7_free_releases_graph_and_map_together
    ⟨.INT32, .INT32, .FLOAT32, true, false, ⟨2, [(0, 1)]⟩, [0, 1]⟩ [0, 1, 2, 9] 0 1 2

unseal Rat.add Rat.mul Rat.inv Rat.sub in
/-- C8: the pagerank smoke-test scenario — the 6-vertex, 8-edge
weighted graph yields the expected scores within 0.001 absolute
tolerance both when built pre-transposed (`test_pagerank`) and when
built untransposed with reversed arrays so that the call's internal
transposition reproduces the same graph (`test_pagerank_with_transpose`),
and the two paths agree exactly. -/
theorem C8_pagerank_transpose_invariance :
    within_tolerance
      (cugraph_pagerank_call
        ⟨pagerank_test_srcs, pagerank_test_dsts, pagerank_test_wgts, true⟩
        (95/100) (1/10000) 20)
      pagerank_test_expected (1/1000) = true ∧
    within_tolerance
      (cugraph_pagerank_call
        ⟨pagerank_test_dsts, pagerank_test_srcs, pagerank_test_wgts, false⟩
        (95/100) (1/10000) 20)
      pagerank_test_expected (1/1000) = true ∧
    cugraph_pagerank_call
        ⟨pagerank_test_srcs, pagerank_test_dsts, pagerank_test_wgts, true⟩
        (95/100) (1/10000) 20 =
      cugraph_pagerank_call
        ⟨pagerank_test_dsts, pagerank_test_srcs, pagerank_test_wgts, false⟩
        (95/100) (1/10000) 20 := by
  refine ⟨?_, ?_, ?_⟩ <;> decide

end Cugraph
